import Mathlib

/-!
Verification of the `localchat` conversational-session orchestrator.

The Python sources are shallowly embedded: pure helpers become Lean
functions on `String`/`List`, stateful Qt handlers become explicit
state-passing functions on a `UIState` record, and every network call is
a parameter holding that call's outcome (`Except`/plain functions).

Python string operations are modelled over `List Char` (Python strings
are sequences of code points, as are Lean `String.data` lists).  Each
`py*` helper mirrors one Python `str` method, restricted to the ASCII
whitespace set actually produced by this program.
-/

namespace LocalChat

/-! ### Python string helpers -/

/-- Python `str.strip` whitespace set (ASCII part). -/
def pySpace (c : Char) : Bool :=
  c = ' ' || c = '\t' || c = '\n' || c = '\r' || c = '\x0b' || c = '\x0c'

def pyStripList (cs : List Char) : List Char :=
  ((cs.dropWhile pySpace).reverse.dropWhile pySpace).reverse

/-- Python `s.strip()`. -/
def pyStrip (s : String) : String := String.mk (pyStripList s.data)

/-- Python `s.rstrip()`. -/
def pyRstrip (s : String) : String :=
  String.mk ((s.data.reverse.dropWhile pySpace).reverse)

/-- Python `a or b` for strings (`a` if non-empty, else `b`). -/
def pyOr (a b : String) : String := if a = "" then b else a

/-- Python `s.lower()` (ASCII case fold; the titles compared here are ASCII). -/
def pyLower (s : String) : String := String.mk (s.data.map Char.toLower)

/-- Python `s.startswith(pre)`. -/
def pyStartsWith (pre s : String) : Bool := pre.data.isPrefixOf s.data

/-- Python `s[:n]` for `n ≥ 0`, by code points. -/
def pyTake (n : Nat) (s : String) : String := String.mk (s.data.take n)

/-- Python `s[n:]` for `n ≥ 0`, by code points. -/
def pyDrop (n : Nat) (s : String) : String := String.mk (s.data.drop n)

/-- Python `xs[:n]` on lists, including the negative-index case. -/
def pySliceList (n : Int) (xs : List α) : List α :=
  if 0 ≤ n then xs.take n.toNat else xs.take ((xs.length : Int) + n).toNat

/-- Python `s.replace("\n", " ")`. -/
def pyCollapseNewlines (s : String) : String :=
  String.mk (s.data.map (fun c => if c = '\n' then ' ' else c))

/-- Split a character list at every occurrence of `c` (keeping empty parts). -/
def splitChAux (c : Char) : List Char → List Char → List (List Char)
  | [], acc => [acc.reverse]
  | a :: as, acc =>
    if a = c then acc.reverse :: splitChAux c as []
    else splitChAux c as (a :: acc)

/-- Python `s.splitlines()` for `\n`-separated text (the only separator this
program ever writes): split at `\n`, without a trailing empty line. -/
def pySplitlines (s : String) : List String :=
  let ps := (splitChAux '\n' s.data []).map String.mk
  match ps.getLast? with
  | some "" => ps.dropLast
  | _ => ps

/-- Suffix of `cs` after the first occurrence of `pat`, if any
(the second half of Python `s.split(pat, 1)`). -/
def findAfter (pat : List Char) : List Char → Option (List Char)
  | [] => if pat.isPrefixOf ([] : List Char) then some [] else none
  | x :: rest =>
    if pat.isPrefixOf (x :: rest) then some ((x :: rest).drop pat.length)
    else findAfter pat rest

/-- Python `pat in s`. -/
def pyContains (pat s : String) : Bool := (findAfter pat.data s.data).isSome

/-- Python `s.split(pat, 1)[1]` (meaningful when `pat in s`). -/
def pyAfterFirst (pat s : String) : Option String :=
  (findAfter pat.data s.data).map String.mk

/-! ### Data model (`core/chat_state.py`, `window.py`)

A history entry is a dict `{"role", "content"}` with an optional `"kind"`
tag (`"web_results"` / `"web_links"`); absent tags are `none`. -/

structure Message where
  role : String
  content : String
  kind : Option String := none
deriving DecidableEq, Repr

/-- Python `msg.get("kind") or ""`. -/
def rawKind (m : Message) : String := m.kind.getD ""

/-- Python `(msg.get("kind") or "").strip()` as computed in `save_chats`. -/
def kindOf (m : Message) : String := pyStrip (rawKind m)

/-- One rendered HTML fragment appended to a chat's `"html"` transcript.
The renderer's markup internals are out of scope; fragments record which
renderer entry point ran with which payload. -/
inductive Frag where
  | user (content : String)
  | system (content : String)
  | assistant (reasoning answer : String)
  | webLinks (md : String)
deriving DecidableEq, Repr

/-- In-memory chat dict: `{"title", "model", "history", "html"}`. -/
structure Chat where
  title : String
  model : String
  history : List Message
  html : List Frag
deriving DecidableEq, Repr

/-- Persisted chat shape: `{"title", "model", "history"}` (no `"html"`). -/
structure ChatData where
  title : String
  model : String
  history : List Message
deriving DecidableEq, Repr

/-- The JSON document written by `save_chats` / read by `load_chats`. -/
structure SavedDoc where
  chats : List ChatData
  current_index : Int
deriving DecidableEq, Repr

/-- `chat_state.make_new_chat(title, model_name)`.  `defaultModelName`
stands for the module constant `DEFAULT_MODEL_NAME` (resolved at startup
from the model-listing endpoint), `sysPrompt` for `get_system_prompt()`. -/
def make_new_chat (sysPrompt defaultModelName : String) (title : String)
    (model_name : Option String) : Chat :=
  let model := pyStrip (pyOr (model_name.getD "") defaultModelName)
  let model := if model = "" then defaultModelName else model
  { title := title, model := model
    history := [{ role := "system", content := sysPrompt }]
    html := [] }

/-! ### Save-time compaction (`chat_state._shrink_web_results`) -/

/-- One iteration of the `for line in lines` loop in `_shrink_web_results`:
the accumulator carries the rendered link lines and `current_title`
(Python `None` ↦ `none`; note the loop tests `current_title` for
truthiness, so an empty title never fires the URL branch). -/
def shrinkLinkStep (acc : List String × Option String) (line : String) :
    List String × Option String :=
  let line := pyStrip line
  if pyStartsWith "Result " line && pyContains ": " line then
    (acc.1, some (pyStrip ((pyAfterFirst ": " line).getD "")))
  else if pyStartsWith "URL: " line && (acc.2.getD "") != "" then
    let url := pyStrip (pyDrop 5 line)
    if url != "" then (acc.1 ++ ["- [" ++ acc.2.getD "" ++ "](" ++ url ++ ")"], none)
    else (acc.1, none)
  else acc

/-- `chat_state._shrink_web_results(content)`. -/
def _shrink_web_results (content : String) : String :=
  let lines := pySplitlines content
  let links := (lines.foldl shrinkLinkStep ([], none)).1
  if links = [] then "Web search sources: (none)"
  else "Web search sources:\n\n" ++ String.intercalate "\n" links

/-- The `Result k: <title>` / `URL: <url>` pairs the compaction loop accepts,
as (title, url) data: same traversal as `shrinkLinkStep`, collecting the
pair instead of the rendered markdown line. -/
def pairStep (acc : List (String × String) × Option String) (line : String) :
    List (String × String) × Option String :=
  let line := pyStrip line
  if pyStartsWith "Result " line && pyContains ": " line then
    (acc.1, some (pyStrip ((pyAfterFirst ": " line).getD "")))
  else if pyStartsWith "URL: " line && (acc.2.getD "") != "" then
    let url := pyStrip (pyDrop 5 line)
    if url != "" then (acc.1 ++ [(acc.2.getD "", url)], none)
    else (acc.1, none)
  else acc

/-- All valid `Result k / URL` pairs of a `web_results` content block. -/
def extractPairs (content : String) : List (String × String) :=
  ((pySplitlines content).foldl pairStep ([], none)).1

/-- One markdown link line `- [title](url)`. -/
def renderLink (p : String × String) : String :=
  "- [" ++ p.1 ++ "](" ++ p.2 ++ ")"

/-! ### Save / load (`chat_state.save_chats`, `chat_state.load_chats`) -/

/-- Per-message compaction in `save_chats`'s inner loop. -/
def saveMsg (m : Message) : Message :=
  if kindOf m = "web_results" then
    { m with content := _shrink_web_results m.content, kind := some "web_links" }
  else m

/-- `chat_state.save_chats(chats, current_index)`: the document written to
`chats.json` (the actual file write is best-effort I/O). -/
def save_chats (chats : List Chat) (current_index : Int) : SavedDoc :=
  { chats := chats.map (fun chat =>
      { title := chat.title, model := chat.model
        history := chat.history.map saveMsg })
    current_index := current_index }

/-- `chat_state.load_chats()` applied to a parsed `chats.json` document
(missing file / parse failure both yield `None` upstream of this logic). -/
def load_chats (doc : SavedDoc) : Option (List ChatData × Int) :=
  if doc.chats = [] then none
  else
    let chats := doc.chats.map (fun chat =>
      { chat with history := chat.history.filter (fun m => rawKind m != "web_results") })
    let current_index := max 0 (min doc.current_index ((chats.length : Int) - 1))
    some (chats, current_index)

/-! ### Search gateway (`web/searx_client.py`)

`requests.get` / `resp.json()` are a network effect: the embedding takes
the upstream outcome as a parameter.  `.error e` stands for any exception
inside the `try` block (network error, non-2xx status, JSON parse
failure); `.ok data` is the parsed body's `data.get("results")` field. -/

/-- One raw result record of the SearXNG response. -/
structure RawItem where
  title : Option String
  url : Option String
  content : Option String
  snippet : Option String
deriving DecidableEq, Repr

/-- Normalized result dict `{"title", "url", "snippet"}`. -/
structure SearchResult where
  title : String
  url : String
  snippet : String
deriving DecidableEq, Repr

/-- The exceptions `search_web` can raise: `ValueError` on an empty query,
`SearchError` when the SearXNG request fails. -/
inductive PyError where
  | valueError (msg : String)
  | searchError (msg : String)
deriving DecidableEq, Repr

/-- Python `str(e)` on the exceptions above. -/
def PyError.str : PyError → String
  | .valueError m => m
  | .searchError m => m

def isSearchError : PyError → Bool
  | .searchError _ => true
  | _ => false

/-- The query-parameter dict `search_web` sends (lines 33–51):
`q`/`format` always, `language` only when non-empty and ≠ `"auto"`,
`safesearch` when not `None`, `categories` when non-empty. -/
structure SearxParams where
  q : String
  format : String
  language : Option String
  safesearch : Option Int
  categories : Option String
deriving DecidableEq, Repr

def buildSearxParams (query language : String) (safesearch : Option Int)
    (categories : String) : SearxParams :=
  { q := query
    format := "json"
    language := if language ≠ "" ∧ language ≠ "auto" then some language else none
    safesearch := safesearch
    categories := if categories ≠ "" then some categories else none }

/-- The result-collection loop of `search_web` (lines 63–80): skip records
without a url, default an empty title to the url, and `break` once
`len(results) >= num_results` — the check runs after the append. -/
def searxLoop (num_results : Int) : List RawItem → List SearchResult → List SearchResult
  | [], acc => acc
  | item :: rest, acc =>
    let title := pyStrip (item.title.getD "")
    let url := pyStrip (item.url.getD "")
    let snippet := pyStrip (pyOr (item.content.getD "") (item.snippet.getD ""))
    if url = "" then searxLoop num_results rest acc
    else
      let acc' := acc ++ [{ title := pyOr title url, url := url, snippet := snippet }]
      if num_results ≤ (acc'.length : Int) then acc'
      else searxLoop num_results rest acc'

/-- `searx_client.search_web(query, num_results, timeout, language,
safesearch, categories)`.  `upstream` maps the outbound request (its query
parameters) to that request's outcome. -/
def search_web (query : String) (num_results : Int) (language : String)
    (safesearch : Option Int) (categories : String)
    (upstream : SearxParams → Except String (Option (List RawItem))) :
    Except PyError (List SearchResult) :=
  if query = "" then .error (.valueError "search_web() got empty query")
  else
    match upstream (buildSearxParams query language safesearch categories) with
    | .error e => .error (.searchError ("SearXNG request failed: " ++ e))
    | .ok data => .ok (searxLoop num_results (data.getD []) [])

/-- Specification-side view of the loop: normalize every record that has a
url, keeping upstream order (no truncation). -/
def normValid : List RawItem → List SearchResult
  | [] => []
  | item :: rest =>
    let url := pyStrip (item.url.getD "")
    if url = "" then normValid rest
    else
      { title := pyOr (pyStrip (item.title.getD "")) url, url := url
        snippet := pyStrip (pyOr (item.content.getD "") (item.snippet.getD "")) }
        :: normValid rest

/-! ### Title generator (`core/chat_title.py`) -/

/-- `{"content": ...}` sub-object of a model response message. -/
structure MsgObj where
  content : Option String
deriving DecidableEq, Repr

/-- One entry of an OpenAI-style `choices` array. -/
structure RespChoice where
  message : Option MsgObj
  text : Option String
deriving DecidableEq, Repr

/-- The tolerated response shapes of `_extract_content_from_response`
(chat-style `choices`, Ollama `message`, Ollama `response`). -/
structure RespData where
  choices : Option (List RespChoice)
  message : Option MsgObj
  response : Option String
deriving DecidableEq, Repr

/-- `chat_title._extract_content_from_response(data)`. -/
def _extract_content_from_response (d : RespData) : String :=
  let viaChoices :=
    match d.choices with
    | some (c0 :: _) =>
      let msg := c0.message.getD { content := none }
      pyOr (msg.content.getD "") (c0.text.getD "")
    | _ => ""
  if viaChoices ≠ "" then viaChoices
  else
    let viaMessage :=
      match d.message with
      | some m => m.content.getD ""
      | none => ""
    if viaMessage ≠ "" then viaMessage
    else d.response.getD ""

/-- `chat_title._get_first_user_message(history)`: stripped content of the
first user entry whose stripped content is non-empty. -/
def _get_first_user_message : List Message → String
  | [] => ""
  | m :: rest =>
    if pyLower m.role != "user" then _get_first_user_message rest
    else
      let content := pyStrip m.content
      if content ≠ "" then content else _get_first_user_message rest

/-- `chat_title._fallback_title(first_msg)`.  (The `[0]` index is safe at
every call site: `first_msg` is already stripped there, so a non-empty
`first_msg` has a first line; `headD` mirrors that.) -/
def _fallback_title (first_msg : String) : String :=
  if first_msg = "" then "New chat"
  else
    let text := (pySplitlines (pyStrip first_msg)).headD ""
    let text := if 80 < text.length then pyRstrip (pyTake 80 text) else text
    pyOr text "New chat"

def dquoteChar : Char := Char.ofNat 34
def squoteChar : Char := Char.ofNat 39

/-- Strip one layer of wrapping quotes (`"…"` or `'…'`) and re-strip, as in
`build_chat_title` lines 122–125. -/
def stripWrappingQuotes (t : String) : String :=
  let cs := t.data
  if (cs.head? = some dquoteChar ∧ cs.getLast? = some dquoteChar) ∨
     (cs.head? = some squoteChar ∧ cs.getLast? = some squoteChar) then
    pyStrip (String.mk (cs.drop 1).dropLast)
  else t

/-- Post-processing of a non-empty extracted response (lines 118–129):
collapse newlines, strip, drop one quote layer, truncate to 80 code
points with a right-strip. -/
def postProcessTitle (raw_content : String) : String :=
  let title := pyStrip (pyCollapseNewlines raw_content)
  let title := stripWrappingQuotes title
  if 80 < title.length then pyRstrip (pyTake 80 title) else title

/-- `chat_title.build_chat_title(conversation_history, model_name)` over the
model-call outcome (`.error` = request raised, `.ok` = parsed JSON body). -/
def build_chat_title (conversation_history : List Message)
    (resp : Except String RespData) : String :=
  let first_msg := _get_first_user_message conversation_history
  if first_msg = "" then ""
  else
    match resp with
    | .error _ => _fallback_title first_msg
    | .ok data =>
      let raw_content := pyStrip (_extract_content_from_response data)
      if raw_content = "" then _fallback_title first_msg
      else pyOr (postProcessTitle raw_content) (_fallback_title first_msg)

/-! ### Model gateway normalization (`core/backend.py`, `Worker.run`) -/

/-- Message dict actually sent to Ollama: `{"role", "content"}`. -/
structure OutMsg where
  role : String
  content : String
deriving DecidableEq, Repr

/-- The history-normalization loop of `Worker.run` (lines 49–62): any role
outside `("system", "user", "assistant")` becomes `"user"`. -/
def workerNormalize (history : List Message) : List OutMsg :=
  history.foldl (fun messages item =>
    let role := item.role
    let role :=
      if role ≠ "system" ∧ role ≠ "user" ∧ role ≠ "assistant" then "user" else role
    messages ++ [{ role := role, content := item.content }]) []

/-! ### Turn orchestrator state (`window.py`)

The coordinator's mutable attributes become a record; a handler is a
function `UIState → UIState` (plus the worker it dispatches, if any).
`QThread` dispatch is represented by the returned `Started` value: the
worker's one blocking call and its completion handler are modelled as
separate functions, chained explicitly in the theorems. -/

/-- A worker dispatched by the coordinator. -/
inductive Started where
  | modelWorker (history : List Message) (model : String)
  | searchWorker (plannerHistory : List Message) (raw : String) (model : String)
  | titleWorker (history : List Message) (model : String)
deriving DecidableEq, Repr

/-- Coordinator state: `self.chats`, `self.current_chat_index`,
`self.llm_busy`, the send button's enabled flag, the input box text,
the web-search toggle, and `self.default_model_name`. -/
structure UIState where
  chats : List Chat
  current_chat_index : Int
  llm_busy : Bool
  send_enabled : Bool
  input_text : String
  search_toggle : Bool
  default_model_name : String
deriving DecidableEq, Repr

/-- `self.current_chat` (property, lines 175–177). -/
def currentChat (st : UIState) : Option Chat :=
  if 0 ≤ st.current_chat_index ∧ st.current_chat_index < (st.chats.length : Int) then
    st.chats[st.current_chat_index.toNat]?
  else none

/-- Replace the active chat by `f` of it (mutation of the shared dict). -/
def modifyCurrentChat (st : UIState) (f : Chat → Chat) : UIState :=
  match currentChat st with
  | some chat => { st with chats := st.chats.set st.current_chat_index.toNat (f chat) }
  | none => st

/-- `self.append_user(content)` (renders into the chat's html only). -/
def append_user (st : UIState) (content : String) : UIState :=
  modifyCurrentChat st (fun c => { c with html := c.html ++ [Frag.user content] })

/-- `self.append_system(content)`. -/
def append_system (st : UIState) (content : String) : UIState :=
  modifyCurrentChat st (fun c => { c with html := c.html ++ [Frag.system content] })

/-- `self.append_assistant(reasoning, answer)`. -/
def append_assistant (st : UIState) (reasoning answer : String) : UIState :=
  modifyCurrentChat st (fun c => { c with html := c.html ++ [Frag.assistant reasoning answer] })

/-- `chat["history"].append(m)` on the active chat. -/
def appendHistory (st : UIState) (m : Message) : UIState :=
  modifyCurrentChat st (fun c => { c with history := c.history ++ [m] })

/-- `self._finish_llm_cycle()` (lines 792–796). -/
def _finish_llm_cycle (st : UIState) : UIState :=
  { st with llm_busy := false, send_enabled := true }

/-- `self.on_chat_selected(index)` (lines 616–636; the combo-box syncs and
re-render have no orchestrator-visible state). -/
def on_chat_selected (st : UIState) (index : Int) : UIState :=
  if index < 0 ∨ (st.chats.length : Int) ≤ index then st
  else { st with current_chat_index := index }

/-- `self.chat_list.setCurrentRow(row)`: the `currentRowChanged` signal
delivers the new row to `on_chat_selected`. -/
def setCurrentRow (st : UIState) (row : Int) : UIState :=
  on_chat_selected st row

/-- `self._delete_chat_at(row)` (lines 670–685).  `sysPrompt` and
`defaultModelFallback` stand for `get_system_prompt()` and the module
constant `DEFAULT_MODEL_NAME` consulted by `make_new_chat`. -/
def _delete_chat_at (sysPrompt defaultModelFallback : String) (st : UIState)
    (row : Int) : UIState :=
  if row < 0 ∨ (st.chats.length : Int) ≤ row then st
  else
    let st1 := { st with chats := st.chats.eraseIdx row.toNat }
    if st1.chats = [] then
      let newChat := make_new_chat sysPrompt defaultModelFallback "Chat 1"
        (some st.default_model_name)
      setCurrentRow { st1 with chats := st1.chats ++ [newChat] } 0
    else
      setCurrentRow st1 (min row ((st1.chats.length : Int) - 1))

/-- The planner-history filter of `on_search_web_clicked` (lines 940–948):
keep user/assistant entries, but drop assistant entries tagged
`web_results`. -/
def plannerKeep (m : Message) : Bool :=
  let role := pyLower m.role
  if role != "user" && role != "assistant" then false
  else if role == "assistant" && rawKind m == "web_results" then false
  else true

/-- `self.on_search_web_clicked()` (lines 923–972): guard, append the user
message, build the planner history, mark busy and start the search
worker. -/
def on_search_web_clicked (st : UIState) : UIState × Option Started :=
  match currentChat st with
  | none => (st, none)
  | some chat =>
    if !st.send_enabled then (st, none)
    else if st.llm_busy then (st, none)
    else
      let raw_message := pyStrip st.input_text
      if raw_message = "" then (st, none)
      else
        let userMsg : Message := { role := "user", content := raw_message }
        let st1 := appendHistory (append_user { st with input_text := "" } raw_message) userMsg
        let planner_history := (chat.history ++ [userMsg]).filter plannerKeep
        let st2 := { st1 with llm_busy := true, send_enabled := false }
        (st2, some (.searchWorker planner_history raw_message chat.model))

/-- `self.on_send_clicked()` (lines 862–898): guard, delegate to the search
path when the toggle is on, otherwise append the user message and start
the model worker with a copy of the updated history. -/
def on_send_clicked (st : UIState) : UIState × Option Started :=
  match currentChat st with
  | none => (st, none)
  | some chat =>
    if !st.send_enabled then (st, none)
    else if st.llm_busy then (st, none)
    else
      let text := pyStrip st.input_text
      if text = "" then (st, none)
      else if st.search_toggle then on_search_web_clicked st
      else
        let userMsg : Message := { role := "user", content := text }
        let st1 := appendHistory (append_user { st with input_text := "" } text) userMsg
        let st2 := { st1 with llm_busy := true, send_enabled := false }
        (st2, some (.modelWorker (chat.history ++ [userMsg]) chat.model))

/-- `self._start_title_planner_if_needed()` (lines 798–835).
`titleEnabled` stands for `is_title_planner_enabled()`. -/
def _start_title_planner_if_needed (titleEnabled : Bool) (st : UIState) :
    UIState × Option Started :=
  if !titleEnabled then (_finish_llm_cycle st, none)
  else
    match currentChat st with
    | none => (_finish_llm_cycle st, none)
    | some chat =>
      let title := pyStrip chat.title
      if title ≠ "" ∧ ¬ pyStartsWith "chat " (pyLower title) then
        (_finish_llm_cycle st, none)
      else if chat.history = [] then (_finish_llm_cycle st, none)
      else (st, some (.titleWorker chat.history (pyOr chat.model st.default_model_name)))

/-- `self.on_reply_ready(reasoning, content)` (lines 1038–1047). -/
def on_reply_ready (titleEnabled : Bool) (st : UIState)
    (reasoning content : String) : UIState × Option Started :=
  let st1 :=
    match currentChat st with
    | none => st
    | some _ =>
      let full := pyStrip (pyOr content (pyOr reasoning ""))
      if full ≠ "" then
        append_assistant (appendHistory st { role := "assistant", content := full }) "" full
      else st
  _start_title_planner_if_needed titleEnabled st1

/-- `self.on_reply_error(message)` (lines 1049–1051). -/
def on_reply_error (st : UIState) (message : String) : UIState :=
  _finish_llm_cycle (append_system st ("ERROR: " ++ message))

/-- `self.on_title_ready(new_title)` (lines 837–852). -/
def on_title_ready (st : UIState) (new_title : String) : UIState :=
  let t := pyStrip new_title
  let st1 :=
    match currentChat st with
    | some _ => if t ≠ "" then modifyCurrentChat st (fun c => { c with title := t }) else st
    | none => st
  _finish_llm_cycle st1

/-- `self.on_title_error(message)` (lines 854–856): log only. -/
def on_title_error (st : UIState) (_message : String) : UIState :=
  _finish_llm_cycle st

/-! ### Web search worker (`web/web_search.py`) and its handlers -/

/-- `WebSearchSettings` as merged by `settings.load_web_settings()`. -/
structure WebSettings where
  enabled : Bool := true
  use_planner : Bool := true
  max_results : Int := 10
  max_pages : Int := 5
  max_chars_per_page : Int := 6000
  language : String := "en"
  safesearch : Int := 1
  show_query : Bool := true
  strict_web_only : Bool := true
deriving Repr

/-- External outcomes consumed by one `WebSearchWorker.run`:
`planner` is `build_search_query(...)` (exception message or returned
query), `upstream` is the SearXNG call keyed by its request parameters,
and `fetch` is `fetch_page_text(url, max_chars)` per url (best-effort:
already `""` on any failure). -/
structure RunExternals where
  planner : Except String String
  upstream : SearxParams → Except String (Option (List RawItem))
  fetch : String → String

/-- The terminal signal of `WebSearchWorker.run`: `finished(raw_message,
search_query, md_block, context_blocks)` or `error(message)`. -/
inductive RunOutcome where
  | finished (raw_message search_query md_block : String) (context_blocks : List String)
  | errored (message : String)
deriving DecidableEq, Repr

/-- One iteration of the per-result loop in `WebSearchWorker.run`
(lines 62–97), yielding `(md_piece, context_block)` for index `i`
(1-based). -/
def resultPiece (fetch : String → String) (i : Nat) (item : SearchResult) :
    String × String :=
  let title := pyOr (pyStrip item.title) ("Result " ++ toString i)
  let url := pyStrip item.url
  let snippet := pyStrip item.snippet
  let page_text := if url ≠ "" then fetch url else ""
  let md_piece :=
    if url ≠ "" then toString i ++ ". [" ++ title ++ "](" ++ url ++ ")"
    else toString i ++ ". " ++ title
  let md_piece := if snippet ≠ "" then md_piece ++ "\n" ++ snippet else md_piece
  let md_piece :=
    if page_text ≠ "" then
      md_piece ++ "\n\n> " ++ pyCollapseNewlines (pyTake 400 page_text)
    else md_piece
  let block := "Result " ++ toString i ++ ": " ++ title ++ "\nURL: " ++ url
  let block := if snippet ≠ "" then block ++ "\nSnippet: " ++ snippet else block
  let block := if page_text ≠ "" then block ++ "\nContent:\n" ++ page_text else block
  (md_piece, block)

/-- `WebSearchWorker.run()` (lines 20–107).  The worker's constructor
arguments `planner_history` and `model_name` only feed the planner call,
which `ext.planner` already captures. -/
def webSearchWorkerRun (ws : WebSettings) (raw_message : String)
    (ext : RunExternals) : RunOutcome :=
  let language := pyOr ws.language "en"
  let search_query :=
    if ws.use_planner then
      match ext.planner with
      | .ok q => q
      | .error _ => raw_message
    else raw_message
  match search_web search_query ws.max_results language (some ws.safesearch)
      "general" ext.upstream with
  | .error e => .errored e.str
  | .ok results =>
    if results = [] then .errored "Web search returned no results."
    else
      let pieces := (pySliceList ws.max_pages results).enumFrom 1
        |>.map (fun p => resultPiece ext.fetch p.1 p.2)
      let md_lines := pieces.map Prod.fst
      let context_blocks := pieces.map Prod.snd
      let md_block :=
        if md_lines ≠ [] then String.intercalate "\n\n---\n\n" md_lines
        else "_no results_"
      .finished raw_message search_query md_block context_blocks

/-- `self.on_web_search_finished(raw_message, search_query, md_block,
context_blocks)` (lines 974–1028).  `ws` is the second, fresh
`load_web_settings()` read; `followup` is `get_web_followup_instruction()`.
The final worker dispatch reads the active chat's now-updated history. -/
def on_web_search_finished (ws : WebSettings) (followup : String) (st : UIState)
    (raw_message search_query md_block : String) (context_blocks : List String) :
    UIState × Option Started :=
  match currentChat st with
  | none => (_finish_llm_cycle st, none)
  | some _ =>
    let st := if ws.show_query then append_system st ("[web search query] " ++ search_query) else st
    let st := modifyCurrentChat st
      (fun c => { c with html := c.html ++ [Frag.webLinks (pyOr md_block "_no results_")] })
    let text_block :=
      if context_blocks ≠ [] then String.intercalate "\n\n\n" context_blocks
      else "No usable page content found."
    let search_context :=
      "Web search results and page content.\nOriginal user message: " ++ raw_message ++
      "\nSearch query used: " ++ search_query ++ "\n\n" ++ text_block
    let st := appendHistory st { role := "assistant", content := search_context, kind := some "web_results" }
    let st := if ws.strict_web_only then appendHistory st { role := "system", content := followup } else st
    match currentChat st with
    | some chat => (st, some (.modelWorker chat.history chat.model))
    | none => (st, none)

/-- `self.on_web_search_error(message)` (lines 1030–1032). -/
def on_web_search_error (st : UIState) (message : String) : UIState :=
  _finish_llm_cycle (append_system st ("Web search error: " ++ message))

/-- Dispatch of the search worker's terminal signal to its connected slot
(lines 965–966): `finished → on_web_search_finished`,
`error → on_web_search_error` (which starts nothing). -/
def handleSearchOutcome (ws : WebSettings) (followup : String) (st : UIState) :
    RunOutcome → UIState × Option Started
  | .errored m => (on_web_search_error st m, none)
  | .finished raw q md blocks => on_web_search_finished ws followup st raw q md blocks

/-! ### Concrete inputs used by the witness theorems -/

/-- A fresh one-chat coordinator state. -/
def chatEx : Chat :=
  { title := "Chat 1", model := "llama3:latest"
    history := [{ role := "system", content := "be helpful" }], html := [] }

def stEx : UIState :=
  { chats := [chatEx], current_chat_index := 0, llm_busy := false
    send_enabled := true, input_text := " hi there ", search_toggle := false
    default_model_name := "llama3:latest" }

def msgEx : Message :=
  { role := "assistant"
    content := "intro\nResult 1: Alpha\nURL: http://a\nContent:\nbig page text\nResult 2: Beta\nURL: http://b"
    kind := some "web_results" }

/-- One valid upstream search record. -/
def rawItemEx : RawItem :=
  { title := some "T", url := some "http://x", content := none, snippet := none }

/-- A chat holding a verbose `web_results` message. -/
def chatWEx : Chat := { chatEx with history := chatEx.history ++ [msgEx] }

/-- Worker externals for a turn whose search yields zero results. -/
def extZeroEx : RunExternals :=
  { planner := .error "planner down"
    upstream := fun _ => .ok (some [])
    fetch := fun _ => "" }

end LocalChat

namespace LocalChat

/-! ### Supporting lemmas -/

theorem foldl_append_eq_map (g : α → β) (l : List α) (acc : List β) :
    l.foldl (fun ms i => ms ++ [g i]) acc = acc ++ l.map g := by
  induction l generalizing acc with
  | nil => simp
  | cons a t ih => simp [ih]

/-! ### C9 — role normalization before a model call -/

/-- C9.  `Worker.run` normalizes the history before the model call: the
output list has the same length, each entry keeps its content and
position, roles in `{system, user, assistant}` are unchanged, and every
other role becomes `"user"`. -/
theorem worker_normalizes_roles (history : List Message) :
    (workerNormalize history).length = history.length ∧
    workerNormalize history = history.map (fun m =>
      { role :=
          if m.role = "system" ∨ m.role = "user" ∨ m.role = "assistant" then m.role
          else "user"
        content := m.content }) ∧
    (workerNormalize history).map OutMsg.content = history.map Message.content := by
  have hmap : workerNormalize history = history.map (fun m =>
      { role :=
          if m.role = "system" ∨ m.role = "user" ∨ m.role = "assistant" then m.role
          else "user"
        content := m.content }) := by
    unfold workerNormalize
    rw [foldl_append_eq_map (fun item : Message =>
      ({ role :=
          if item.role ≠ "system" ∧ item.role ≠ "user" ∧ item.role ≠ "assistant" then "user"
          else item.role
         content := item.content } : OutMsg)) history []]
    simp only [List.nil_append]
    apply List.map_congr_left
    intro m _
    by_cases hs : m.role = "system" <;> by_cases hu : m.role = "user" <;>
      by_cases ha : m.role = "assistant" <;> simp [hs, hu, ha]
  refine ⟨?_, hmap, ?_⟩
  · rw [hmap, List.length_map]
  · rw [hmap, List.map_map]
    rfl

/-! ### C3 — single-flight guard -/

/-- C3.  While a turn is in flight (`llm_busy`), submitting another turn —
direct path or search path — is a silent no-op: the state (hence every
chat's history) is unchanged and no worker is started (and, the handlers
being total, no error is raised). -/
theorem single_flight_silent_noop (st : UIState) (h : st.llm_busy = true) :
    on_send_clicked st = (st, none) ∧ on_search_web_clicked st = (st, none) := by
  have hsearch : on_search_web_clicked st = (st, none) := by
    unfold on_search_web_clicked
    cases hc : currentChat st with
    | none => rfl
    | some chat => cases hs : st.send_enabled <;> simp [hs, h]
  refine ⟨?_, hsearch⟩
  unfold on_send_clicked
  cases hc : currentChat st with
  | none => rfl
  | some chat => cases hs : st.send_enabled <;> simp [hs, h]

/-- Witness for C3 at a concrete busy state. -/
theorem single_flight_silent_noop_witness :
    ({ stEx with llm_busy := true } : UIState).llm_busy = true ∧
    on_send_clicked { stEx with llm_busy := true } = ({ stEx with llm_busy := true }, none) ∧
    on_search_web_clicked { stEx with llm_busy := true } = ({ stEx with llm_busy := true }, none) := by
  have h := single_flight_silent_noop { stEx with llm_busy := true } rfl
  exact ⟨rfl, h.1, h.2⟩

/-! ### C6 / C7 — search gateway -/

/-- The collection loop of `search_web` keeps the valid records in upstream
order and stops after `max num_results 1` of them: the `break` runs only
after an append, so even `num_results ≤ 0` lets one record through. -/
theorem searxLoop_eq_take (n : Int) (items : List RawItem) :
    ∀ acc : List SearchResult,
      searxLoop n items acc =
        acc ++ (normValid items).take (max (n - acc.length) 1).toNat := by
  induction items with
  | nil => intro acc; simp [searxLoop, normValid]
  | cons item rest ih =>
    intro acc
    simp only [searxLoop, normValid]
    by_cases hu : pyStrip (item.url.getD "") = ""
    · simpa [hu] using ih acc
    · simp only [hu, ite_false]
      split
      -- the loop breaks: exactly one more record was taken
      · next hn =>
          simp only [List.length_append, List.length_cons, List.length_nil] at hn
          have h1 : (max (n - (acc.length : Int)) 1).toNat = 1 := by omega
          rw [h1, List.take_succ_cons, List.take_zero]
      · next hn =>
          rw [ih]
          simp only [List.length_append, List.length_cons, List.length_nil,
            List.append_assoc, List.singleton_append] at *
          have h2 : (max (n - (acc.length : Int)) 1).toNat =
              (max (n - ((acc.length + 1 : Nat) : Int)) 1).toNat + 1 := by omega
          rw [h2, List.take_succ_cons]

/-- C6 counterexample: with `maxResults = 0` and one valid upstream record
the call returns one result, so "at most maxResults results" fails —
`search_web` checks the bound only after appending a record. -/
theorem search_web_truncation_cex :
    search_web "q" 0 "en" (some 1) "general" (fun _ => .ok (some [rawItemEx]))
      = .ok [{ title := "T", url := "http://x", snippet := "" }] ∧
    ¬ ((([{ title := "T", url := "http://x", snippet := "" }] :
        List SearchResult).length : Int) ≤ 0) := by
  exact ⟨rfl, by decide⟩

/-- C6 (amended): `language = "auto"` omits the language parameter and
`language = "en"` sends it; a successful call returns the valid records
(url present) in upstream order, truncated to `max maxResults 1` — in
particular, for `maxResults ≥ 1`, to at most `maxResults`. -/
theorem search_web_params_and_truncation (query lang cats : String)
    (ss : Option Int) (n : Int) (items : List RawItem)
    (upstream : SearxParams → Except String (Option (List RawItem)))
    (hq : query ≠ "")
    (hup : upstream (buildSearxParams query lang ss cats) = .ok (some items)) :
    (buildSearxParams query "auto" ss cats).language = none ∧
    (buildSearxParams query "en" ss cats).language = some "en" ∧
    search_web query n lang ss cats upstream
      = .ok ((normValid items).take (max n 1).toNat) ∧
    (1 ≤ n → ∀ res, search_web query n lang ss cats upstream = .ok res →
      (res.length : Int) ≤ n) := by
  have hrun : search_web query n lang ss cats upstream
      = .ok ((normValid items).take (max n 1).toNat) := by
    rw [search_web, if_neg hq, hup]
    show Except.ok (searxLoop n items []) = _
    rw [searxLoop_eq_take]
    simp
  refine ⟨by simp [buildSearxParams], by simp [buildSearxParams], hrun, ?_⟩
  intro hn res hres
  rw [hrun] at hres
  have h3 : res = (normValid items).take (max n 1).toNat := by
    simpa using hres.symm
  subst h3
  have hlen := List.length_take_le (max n 1).toNat (normValid items)
  omega

/-- Witness for C6 (amended) at a concrete call. -/
theorem search_web_params_and_truncation_witness :
    search_web "q" 2 "en" (some 1) "general" (fun _ => .ok (some [rawItemEx, rawItemEx, rawItemEx]))
      = .ok ((normValid [rawItemEx, rawItemEx, rawItemEx]).take (max (2 : Int) 1).toNat) ∧
    (buildSearxParams "q" "auto" (some 1) "general").language = none := by
  have h := search_web_params_and_truncation "q" "en" "general" (some 1) 2
    [rawItemEx, rawItemEx, rawItemEx] (fun _ => .ok (some [rawItemEx, rawItemEx, rawItemEx]))
    (by decide) rfl
  exact ⟨h.2.2.1, h.1⟩

/-- C7 counterexample: an empty query raises `ValueError`, not
`SearchError` as the claim states. -/
theorem search_web_empty_query_cex :
    search_web "" 10 "en" (some 1) "general" (fun _ => .ok (some []))
      = .error (.valueError "search_web() got empty query") ∧
    isSearchError (.valueError "search_web() got empty query") = false :=
  ⟨rfl, rfl⟩

/-- C7 (amended): `search_web` raises `ValueError` on an empty query and
`SearchError` when the upstream call fails (network error, bad status,
malformed body); otherwise it returns the fully parsed list — it never
partially succeeds. -/
theorem search_web_error_semantics (query lang cats : String) (n : Int)
    (ss : Option Int)
    (upstream : SearxParams → Except String (Option (List RawItem))) :
    (query = "" → search_web query n lang ss cats upstream
        = .error (.valueError "search_web() got empty query")) ∧
    (query ≠ "" → ∀ e, upstream (buildSearxParams query lang ss cats) = .error e →
        search_web query n lang ss cats upstream
          = .error (.searchError ("SearXNG request failed: " ++ e))) ∧
    (query ≠ "" → ∀ d, upstream (buildSearxParams query lang ss cats) = .ok d →
        search_web query n lang ss cats upstream
          = .ok (searxLoop n (d.getD []) [])) := by
  refine ⟨fun h => by rw [search_web, if_pos h], ?_, ?_⟩
  · intro h e he
    rw [search_web, if_neg h, he]
  · intro h d hd
    rw [search_web, if_neg h, hd]

/-- Witness for C7 (amended) at concrete calls. -/
theorem search_web_error_semantics_witness :
    search_web "" 10 "en" (some 1) "general" (fun _ => .ok none)
      = .error (.valueError "search_web() got empty query") ∧
    search_web "q" 10 "en" (some 1) "general" (fun _ => .error "timeout")
      = .error (.searchError ("SearXNG request failed: " ++ "timeout")) := by
  refine ⟨(search_web_error_semantics "" "en" "general" 10 (some 1) (fun _ => .ok none)).1 rfl, ?_⟩
  exact (search_web_error_semantics "q" "en" "general" 10 (some 1)
    (fun _ => .error "timeout")).2.1 (by decide) "timeout" rfl

/-! ### C1 — save-time compaction of `web_results` messages -/

/-- The compaction loop renders exactly the pairs that `pairStep`
collects, one markdown link per pair, in traversal order. -/
theorem shrink_foldl_eq_pairs (lines : List String) :
    ∀ (ps : List (String × String)) (t : Option String),
      (lines.foldl shrinkLinkStep (ps.map renderLink, t)).1 =
        ((lines.foldl pairStep (ps, t)).1).map renderLink := by
  induction lines with
  | nil => intro ps t; rfl
  | cons line rest ih =>
    intro ps t
    simp only [List.foldl_cons]
    by_cases h1 : (pyStartsWith "Result " (pyStrip line) && pyContains ": " (pyStrip line)) = true
    · simp only [shrinkLinkStep, pairStep, h1, if_true]
      exact ih ps (some (pyStrip ((pyAfterFirst ": " (pyStrip line)).getD "")))
    · by_cases h2 : (pyStartsWith "URL: " (pyStrip line) && (t.getD "") != "") = true
      · by_cases h3 : (pyStrip (pyDrop 5 (pyStrip line)) != "") = true
        · simp only [shrinkLinkStep, pairStep, h1, h2, h3, if_true, if_false,
            Bool.false_eq_true, ite_false]
          rw [show ps.map renderLink ++
              ["- [" ++ t.getD "" ++ "](" ++ pyStrip (pyDrop 5 (pyStrip line)) ++ ")"] =
              (ps ++ [(t.getD "", pyStrip (pyDrop 5 (pyStrip line)))]).map renderLink by
            simp [renderLink]]
          exact ih (ps ++ [(t.getD "", pyStrip (pyDrop 5 (pyStrip line)))]) none
        · simp only [shrinkLinkStep, pairStep, h1, h2, h3, Bool.false_eq_true, ite_false, if_true]
          exact ih ps none
      · simp only [shrinkLinkStep, pairStep, h1, h2, Bool.false_eq_true, ite_false]
        exact ih ps t

/-- C1.  At save time a `web_results`-kind message keeps its role, is
relabeled `web_links`, and its content becomes the markdown list of
exactly the valid `Result k / URL` pairs in original order — or the
literal no-sources placeholder when there are none; messages of every
other kind pass through unchanged. -/
theorem save_compacts_web_results (m : Message) :
    (kindOf m = "web_results" →
      (saveMsg m).role = m.role ∧
      (saveMsg m).kind = some "web_links" ∧
      (extractPairs m.content = [] →
        (saveMsg m).content = "Web search sources: (none)") ∧
      (extractPairs m.content ≠ [] →
        (saveMsg m).content = "Web search sources:\n\n" ++
          String.intercalate "\n" ((extractPairs m.content).map renderLink))) ∧
    (kindOf m ≠ "web_results" → saveMsg m = m) := by
  have hlinks : ((pySplitlines m.content).foldl shrinkLinkStep ([], none)).1 =
      (extractPairs m.content).map renderLink := by
    have := shrink_foldl_eq_pairs (pySplitlines m.content) [] none
    simpa [extractPairs] using this
  constructor
  · intro hk
    refine ⟨by simp [saveMsg, hk], by simp [saveMsg, hk], ?_, ?_⟩
    · intro hp
      simp only [saveMsg, hk, if_true, _shrink_web_results, hlinks, hp, List.map_nil, ite_true]
    · intro hp
      have hne : (extractPairs m.content).map renderLink ≠ [] := by
        simpa using hp
      simp only [saveMsg, hk, if_true, _shrink_web_results, hlinks, hne, ite_false]
  · intro hk
    simp [saveMsg, hk]

/-- Witness for C1 on a concrete two-pair `web_results` message. -/
theorem save_compacts_web_results_witness :
    kindOf msgEx = "web_results" ∧
    (saveMsg msgEx).kind = some "web_links" ∧
    (saveMsg msgEx).content =
      "Web search sources:\n\n- [Alpha](http://a)\n- [Beta](http://b)" := by
  have h := (save_compacts_web_results msgEx).1 (by decide)
  refine ⟨by decide, h.2.1, ?_⟩
  have h2 := h.2.2.2 (by decide)
  rw [h2]
  decide

/-! ### C2 — save → load round trip -/

/-- No message of a history written by `save_chats` still carries the raw
kind `"web_results"`: compaction relabeled every such message. -/
theorem rawKind_saveMsg (m : Message) : rawKind (saveMsg m) ≠ "web_results" := by
  by_cases hk : kindOf m = "web_results"
  · simp [saveMsg, hk, rawKind]
  · simp only [saveMsg, hk, ite_false]
    intro hr
    apply hk
    rw [kindOf, hr]
    decide

/-- C2.  Loading a freshly saved non-empty collection returns exactly the
saved chats — titles and models intact, histories the post-compaction
histories, untouched by load — and no loaded message has kind
`web_results`; on any loaded document, legacy `web_results`-kind messages
are dropped (filtered out), never migrated. -/
theorem save_load_round_trip :
    (∀ (chats : List Chat) (ci : Int), chats ≠ [] →
      load_chats (save_chats chats ci) =
        some ((save_chats chats ci).chats,
          max 0 (min ci ((chats.length : Int) - 1))) ∧
      (save_chats chats ci).chats.map ChatData.title = chats.map Chat.title ∧
      (save_chats chats ci).chats.map ChatData.model = chats.map Chat.model ∧
      (∀ c ∈ (save_chats chats ci).chats, ∀ m ∈ c.history,
        rawKind m ≠ "web_results")) ∧
    (∀ doc : SavedDoc, doc.chats ≠ [] →
      load_chats doc = some (doc.chats.map (fun chat =>
          { chat with history := chat.history.filter (fun m => rawKind m != "web_results") }),
        max 0 (min doc.current_index ((doc.chats.length : Int) - 1)))) := by
  have hload : ∀ doc : SavedDoc, doc.chats ≠ [] →
      load_chats doc = some (doc.chats.map (fun chat =>
          { chat with history := chat.history.filter (fun m => rawKind m != "web_results") }),
        max 0 (min doc.current_index ((doc.chats.length : Int) - 1))) := by
    intro doc hne
    simp [load_chats, hne]
  refine ⟨?_, hload⟩
  intro chats ci hne
  have hclean : ∀ c ∈ (save_chats chats ci).chats, ∀ m ∈ c.history,
      rawKind m ≠ "web_results" := by
    intro c hc m hm
    simp only [save_chats, List.mem_map] at hc
    obtain ⟨orig, _, rfl⟩ := hc
    simp only [List.mem_map] at hm
    obtain ⟨m0, _, rfl⟩ := hm
    exact rawKind_saveMsg m0
  have hsne : (save_chats chats ci).chats ≠ [] := by
    simp only [save_chats]
    simpa using hne
  have hfixed : (save_chats chats ci).chats.map (fun chat =>
      { chat with history := chat.history.filter (fun m => rawKind m != "web_results") })
      = (save_chats chats ci).chats := by
    have : ∀ c ∈ (save_chats chats ci).chats,
        ({ c with history := c.history.filter (fun m => rawKind m != "web_results") } : ChatData)
          = id c := by
      intro c hc
      have : c.history.filter (fun m => rawKind m != "web_results") = c.history := by
        rw [List.filter_eq_self]
        intro m hm
        simpa using hclean c hc m hm
      simp [this]
    rw [List.map_congr_left this, List.map_id]
  have hlen : ((save_chats chats ci).chats.length : Int) = (chats.length : Int) := by
    simp [save_chats]
  refine ⟨?_, by simp [save_chats], by simp [save_chats], hclean⟩
  rw [hload (save_chats chats ci) hsne, hfixed, hlen]
  rfl

/-- Witness for C2: a one-chat collection whose `web_results` history entry
round-trips as a compacted `web_links` entry, with an out-of-range saved
index clamped to 0. -/
theorem save_load_round_trip_witness :
    load_chats (save_chats [chatWEx] 5) =
      some ([{ title := "Chat 1", model := "llama3:latest"
               history := [{ role := "system", content := "be helpful" },
                 { role := "assistant"
                   content := "Web search sources:\n\n- [Alpha](http://a)\n- [Beta](http://b)"
                   kind := some "web_links" }] }], 0) := by
  have h := ((save_load_round_trip).1 [chatWEx] 5 (by decide)).1
  rw [h]
  decide

/-! ### C4 — deleting a chat never empties the collection -/

/-- C4.  For a valid row, `_delete_chat_at` leaves a non-empty collection:
deleting the only chat synthesizes exactly one default chat whose history
is non-empty and holds a system message; with other chats remaining, one
chat is removed and the new active index is `min row (len - 1)` for the
new length `len`. -/
theorem delete_chat_invariants (sysPrompt dflt : String) (st : UIState) (row : Int)
    (h0 : 0 ≤ row) (h1 : row < (st.chats.length : Int)) :
    (_delete_chat_at sysPrompt dflt st row).chats ≠ [] ∧
    (st.chats.length = 1 →
      ∃ c, (_delete_chat_at sysPrompt dflt st row).chats = [c] ∧
        c.history ≠ [] ∧ ∃ m ∈ c.history, m.role = "system") ∧
    (1 < st.chats.length →
      (_delete_chat_at sysPrompt dflt st row).chats.length = st.chats.length - 1 ∧
      (_delete_chat_at sysPrompt dflt st row).current_chat_index =
        min row (((_delete_chat_at sysPrompt dflt st row).chats.length : Int) - 1)) := by
  have hguard : ¬(row < 0 ∨ (st.chats.length : Int) ≤ row) := by omega
  have hlt : row.toNat < st.chats.length := by omega
  have hlen : (st.chats.eraseIdx row.toNat).length + 1 = st.chats.length :=
    List.length_eraseIdx_add_one hlt
  by_cases hemp : st.chats.eraseIdx row.toNat = []
  · -- the deleted chat was the only one: a fresh default chat is created
    have hone : st.chats.length = 1 := by
      rw [← hlen, hemp]
      rfl
    have hres : _delete_chat_at sysPrompt dflt st row =
        setCurrentRow { st with chats := st.chats.eraseIdx row.toNat ++
          [make_new_chat sysPrompt dflt "Chat 1" (some st.default_model_name)] } 0 := by
      rw [_delete_chat_at, if_neg hguard, if_pos hemp]
    have hchats : (_delete_chat_at sysPrompt dflt st row).chats =
        [make_new_chat sysPrompt dflt "Chat 1" (some st.default_model_name)] := by
      rw [hres, setCurrentRow, on_chat_selected]
      rw [hemp]
      simp
    refine ⟨by rw [hchats]; simp, ?_, by omega⟩
    intro _
    exact ⟨make_new_chat sysPrompt dflt "Chat 1" (some st.default_model_name), hchats,
      by simp [make_new_chat], ⟨{ role := "system", content := sysPrompt },
        by simp [make_new_chat], rfl⟩⟩
  · -- other chats remain: one is removed and a nearby row is selected
    have hlen1 : 0 < (st.chats.eraseIdx row.toNat).length :=
      List.length_pos.mpr hemp
    have hres : _delete_chat_at sysPrompt dflt st row =
        setCurrentRow { st with chats := st.chats.eraseIdx row.toNat }
          (min row (((st.chats.eraseIdx row.toNat).length : Int) - 1)) := by
      rw [_delete_chat_at, if_neg hguard, if_neg hemp]
    have hidx : ¬(min row (((st.chats.eraseIdx row.toNat).length : Int) - 1) < 0 ∨
        (((st.chats.eraseIdx row.toNat).length : Int) ≤
          min row (((st.chats.eraseIdx row.toNat).length : Int) - 1))) := by
      omega
    have hfin : _delete_chat_at sysPrompt dflt st row =
        { st with
          chats := st.chats.eraseIdx row.toNat
          current_chat_index := min row (((st.chats.eraseIdx row.toNat).length : Int) - 1) } := by
      rw [hres, setCurrentRow, on_chat_selected, if_neg hidx]
    refine ⟨by rw [hfin]; exact hemp, by omega, ?_⟩
    intro _
    rw [hfin]
    refine ⟨?_, rfl⟩
    show (st.chats.eraseIdx row.toNat).length = st.chats.length - 1
    omega

/-- Witness for C4: deleting the only chat of the example state. -/
theorem delete_chat_invariants_witness :
    (0 : Int) ≤ 0 ∧ (0 : Int) < (stEx.chats.length : Int) ∧
    (_delete_chat_at "be helpful" "llama3:latest" stEx 0).chats ≠ [] ∧
    ∃ c, (_delete_chat_at "be helpful" "llama3:latest" stEx 0).chats = [c] ∧
      c.history ≠ [] ∧ ∃ m ∈ c.history, m.role = "system" := by
  have h := delete_chat_invariants "be helpful" "llama3:latest" stEx 0
    (by decide) (by decide)
  exact ⟨by decide, by decide, h.1, h.2.1 (by decide)⟩

/-! ### C8 — title generation and its fallbacks -/

theorem length_dropWhile_le (p : α → Bool) :
    ∀ l : List α, (l.dropWhile p).length ≤ l.length
  | [] => le_refl _
  | a :: t => by
    rw [List.dropWhile]
    split
    · exact Nat.le_succ_of_le (length_dropWhile_le p t)
    · exact le_refl _

theorem pyRstrip_length_le (s : String) : (pyRstrip s).length ≤ s.length := by
  obtain ⟨cs⟩ := s
  show (String.mk ((cs.reverse.dropWhile pySpace).reverse)).length ≤ (String.mk cs).length
  rw [String.length_mk, String.length_mk, List.length_reverse]
  calc (cs.reverse.dropWhile pySpace).length ≤ cs.reverse.length :=
        length_dropWhile_le pySpace cs.reverse
    _ = cs.length := List.length_reverse cs.reverse ▸ by simp

theorem pyTake_length_le (n : Nat) (s : String) : (pyTake n s).length ≤ n := by
  rw [pyTake, String.length_mk]
  exact List.length_take_le n s.data

theorem fallback_title_length_le (fm : String) : (_fallback_title fm).length ≤ 80 := by
  rw [_fallback_title]
  by_cases h : fm = ""
  · simp only [h, if_true]
    decide
  · simp only [h, ite_false]
    set text := (pySplitlines (pyStrip fm)).headD "" with htext
    by_cases hlong : 80 < text.length
    · simp only [hlong, if_true, pyOr]
      split
      · decide
      · exact le_trans (pyRstrip_length_le _) (pyTake_length_le 80 text)
    · simp only [hlong, ite_false, pyOr]
      split
      · decide
      · omega

theorem postProcessTitle_length_le (raw : String) :
    (postProcessTitle raw).length ≤ 80 := by
  rw [postProcessTitle]
  split
  · next h => exact le_trans (pyRstrip_length_le _) (pyTake_length_le 80 _)
  · next h => omega

/-- C8 counterexample: with no user message in the history the generator
returns the empty string (before even consulting the model response),
not the literal `"New chat"` the claim promises. -/
theorem build_chat_title_no_user_cex :
    build_chat_title [] (.error "request failed") = "" ∧
    build_chat_title [] (.error "request failed") ≠ "New chat" :=
  ⟨rfl, by decide⟩

/-- C8 (amended).  With no non-empty user message the generator returns
`""` without consulting the response; on a failed request or an
empty extracted response it falls back to the first line of the first
non-empty user message truncated to 80 characters; a non-empty response
is post-processed (collapse newlines, strip one quote layer, truncate to
80 code points), falling back when post-processing yields `""`; every
returned title has at most 80 characters. -/
theorem build_chat_title_spec (history : List Message) (resp : Except String RespData) :
    (_get_first_user_message history = "" → build_chat_title history resp = "") ∧
    (_get_first_user_message history ≠ "" → ∀ e, resp = .error e →
      build_chat_title history resp = _fallback_title (_get_first_user_message history)) ∧
    (_get_first_user_message history ≠ "" → ∀ d, resp = .ok d →
      pyStrip (_extract_content_from_response d) = "" →
      build_chat_title history resp = _fallback_title (_get_first_user_message history)) ∧
    (_get_first_user_message history ≠ "" → ∀ d, resp = .ok d →
      pyStrip (_extract_content_from_response d) ≠ "" →
      build_chat_title history resp =
        pyOr (postProcessTitle (pyStrip (_extract_content_from_response d)))
          (_fallback_title (_get_first_user_message history))) ∧
    (build_chat_title history resp).length ≤ 80 := by
  refine ⟨?_, ?_, ?_, ?_, ?_⟩
  · intro h
    rw [build_chat_title.eq_def, if_pos h]
  · intro h e he
    rw [build_chat_title.eq_def, if_neg h, he]
  · intro h d hd hraw
    rw [build_chat_title.eq_def, if_neg h, hd]
    simp only [hraw, ite_true]
  · intro h d hd hraw
    rw [build_chat_title.eq_def, if_neg h, hd]
    simp only [hraw, ite_false]
  · rw [build_chat_title.eq_def]
    by_cases h : _get_first_user_message history = ""
    · simp only [h, if_true]
      decide
    · simp only [h, ite_false]
      cases resp with
      | error e => exact fallback_title_length_le _
      | ok d =>
        by_cases hraw : pyStrip (_extract_content_from_response d) = ""
        · simp only [hraw, ite_true]
          exact fallback_title_length_le _
        · simp only [hraw, ite_false, pyOr]
          split
          · exact fallback_title_length_le _
          · exact postProcessTitle_length_le _

/-- Witness for C8 (amended): a failed request falls back to the first
user message's first line. -/
theorem build_chat_title_spec_witness :
    build_chat_title [{ role := "user", content := " What is 2+2? " }] (.error "boom")
      = _fallback_title "What is 2+2?" ∧
    build_chat_title [{ role := "user", content := " What is 2+2? " }] (.error "boom")
      = "What is 2+2?" := by
  have h := (build_chat_title_spec [{ role := "user", content := " What is 2+2? " }]
    (.error "boom")).2.1 (by decide) "boom" rfl
  rw [h]
  exact ⟨by decide, by decide⟩

/-! ### Coordinator-state lemmas shared by C10 and C5 -/

theorem set_getElem?_self {l : List α} : ∀ {i : Nat} {a : α},
    l[i]? = some a → l.set i a = l := by
  induction l with
  | nil => intro i a h; cases h
  | cons b t ih =>
    intro i a h
    cases i with
    | zero =>
      simp only [List.getElem?_cons_zero, Option.some.injEq] at h
      rw [List.set_cons_zero, h]
    | succ j =>
      simp only [List.getElem?_cons_succ] at h
      rw [List.set_cons_succ, ih h]

theorem currentChat_getElem? {st : UIState} {c : Chat}
    (h : currentChat st = some c) :
    st.chats[st.current_chat_index.toNat]? = some c := by
  rw [currentChat] at h
  split at h
  · exact h
  · cases h

/-- `modifyCurrentChat` rewrites the active chat in place. -/
theorem modify_chats_eq {st : UIState} {c : Chat} (f : Chat → Chat)
    (h : currentChat st = some c) :
    (modifyCurrentChat st f).chats =
      st.chats.set st.current_chat_index.toNat (f c) := by
  rw [modifyCurrentChat, h]

/-- Any per-chat projection `g` untouched by the rewrite `f` is preserved
across `modifyCurrentChat`. -/
theorem modify_map_eq (st : UIState) (f : Chat → Chat) (g : Chat → β)
    (hf : ∀ c, g (f c) = g c) :
    (modifyCurrentChat st f).chats.map g = st.chats.map g := by
  rw [modifyCurrentChat]
  cases hc : currentChat st with
  | none => rfl
  | some chat =>
    dsimp only
    rw [List.map_set, hf chat]
    apply set_getElem?_self
    rw [List.getElem?_map, currentChat_getElem? hc]
    rfl

/-- The title stage either finishes the cycle at once or hands the
unchanged state to a title worker. -/
theorem start_title_cases (e : Bool) (st : UIState) :
    _start_title_planner_if_needed e st = (_finish_llm_cycle st, none) ∨
    ∃ w, _start_title_planner_if_needed e st = (st, some w) := by
  rw [_start_title_planner_if_needed]
  split
  · exact Or.inl rfl
  · cases hc : currentChat st with
    | none => exact Or.inl rfl
    | some chat =>
      dsimp only
      split
      · exact Or.inl rfl
      · split
        · exact Or.inl rfl
        · exact Or.inr ⟨_, rfl⟩

theorem start_title_fst_chats (e : Bool) (st : UIState) :
    (_start_title_planner_if_needed e st).1.chats = st.chats := by
  rcases start_title_cases e st with h | ⟨w, h⟩ <;> (rw [h]; try rfl)

theorem start_title_none_idle (e : Bool) (st : UIState)
    (h : (_start_title_planner_if_needed e st).2 = none) :
    (_start_title_planner_if_needed e st).1.llm_busy = false := by
  rcases start_title_cases e st with h1 | ⟨w, h1⟩
  · rw [h1]
    rfl
  · rw [h1] at h
    cases h

/-- `on_title_ready` can rename the active chat but touches no history. -/
theorem on_title_ready_histories (s : UIState) (t : String) :
    (on_title_ready s t).chats.map Chat.history = s.chats.map Chat.history := by
  rw [on_title_ready]
  cases hc : currentChat s with
  | none => rfl
  | some c =>
    dsimp only
    split
    · show (modifyCurrentChat s _).chats.map Chat.history = s.chats.map Chat.history
      exact modify_map_eq s _ Chat.history (fun c => rfl)
    · rfl

/-! ### C10 — empty model reply -/

/-- C10.  When the model call succeeds but the reply text (content, falling
back to reasoning) trims to empty, `on_reply_ready` appends nothing: the
state reaching the title stage is unchanged, the turn still proceeds to
title consideration, and the orchestrator returns to idle with no error —
immediately if no title worker starts, otherwise through either title
callback, neither of which touches any history. -/
theorem empty_reply_keeps_history (titleEnabled : Bool) (st : UIState)
    (reasoning content : String)
    (h : pyStrip (pyOr content (pyOr reasoning "")) = "") :
    on_reply_ready titleEnabled st reasoning content =
      _start_title_planner_if_needed titleEnabled st ∧
    (on_reply_ready titleEnabled st reasoning content).1.chats = st.chats ∧
    ((on_reply_ready titleEnabled st reasoning content).2 = none →
      (on_reply_ready titleEnabled st reasoning content).1.llm_busy = false) ∧
    (∀ m, (on_title_error (on_reply_ready titleEnabled st reasoning content).1 m).llm_busy
        = false) ∧
    (∀ t, (on_title_ready (on_reply_ready titleEnabled st reasoning content).1 t).llm_busy
        = false ∧
      (on_title_ready (on_reply_ready titleEnabled st reasoning content).1 t).chats.map
          Chat.history = st.chats.map Chat.history) := by
  have heq : on_reply_ready titleEnabled st reasoning content =
      _start_title_planner_if_needed titleEnabled st := by
    rw [on_reply_ready]
    cases hc : currentChat st with
    | none => rfl
    | some c =>
      dsimp only
      simp only [h, ne_eq, not_true_eq_false, ite_false]
  have hchats : (on_reply_ready titleEnabled st reasoning content).1.chats = st.chats := by
    rw [heq]
    exact start_title_fst_chats titleEnabled st
  refine ⟨heq, hchats, ?_, fun m => rfl, fun t => ⟨rfl, ?_⟩⟩
  · intro hn
    rw [heq] at hn ⊢
    exact start_title_none_idle titleEnabled st hn
  · rw [on_title_ready_histories, hchats]

/-- Witness for C10: a whitespace-only reply at the example state mid-turn
returns straight to idle with no history change. -/
theorem empty_reply_keeps_history_witness :
    pyStrip (pyOr "  " (pyOr "" "")) = "" ∧
    (on_reply_ready false { stEx with llm_busy := true } "" "  ").1.chats
      = ({ stEx with llm_busy := true } : UIState).chats ∧
    (on_reply_ready false { stEx with llm_busy := true } "" "  ").2 = none ∧
    (on_reply_ready false { stEx with llm_busy := true } "" "  ").1.llm_busy = false := by
  have h := empty_reply_keeps_history false { stEx with llm_busy := true } "" "  "
    (by decide)
  exact ⟨by decide, h.2.1, by decide, h.2.2.1 (by decide)⟩

/-! ### C5 — zero search results abort the turn before any model call -/

theorem currentChat_modify {st : UIState} {c : Chat} (f : Chat → Chat)
    (h : currentChat st = some c) :
    currentChat (modifyCurrentChat st f) = some (f c) := by
  have hget := currentChat_getElem? h
  have hlt : st.current_chat_index.toNat < st.chats.length := by
    by_contra hge
    rw [List.getElem?_eq_none (by omega)] at hget
    cases hget
  rw [modifyCurrentChat, h]
  rw [currentChat] at h ⊢
  split at h
  · next hcond =>
    rw [if_pos (by simpa [List.length_set] using hcond)]
    rw [List.getElem?_set_self hlt]
  · cases h

/-- With an all-empty upstream, `search_web` either rejects an empty query
or returns the empty result list. -/
theorem search_web_zero (q : String) (n : Int) (lang : String) (ss : Option Int)
    (cats : String) (upstream : SearxParams → Except String (Option (List RawItem)))
    (hup : ∀ p, upstream p = .ok (some [])) :
    search_web q n lang ss cats upstream
        = .error (.valueError "search_web() got empty query") ∨
    search_web q n lang ss cats upstream = .ok [] := by
  by_cases hq : q = ""
  · left
    rw [search_web, if_pos hq]
  · right
    rw [search_web, if_neg hq, hup]
    rfl

/-- A search worker whose gateway yields no results always emits an error
signal — never `finished`, so the model stage is never dispatched. -/
theorem run_zero_results (ws : WebSettings) (raw : String) (ext : RunExternals)
    (hup : ∀ p, ext.upstream p = .ok (some [])) :
    ∃ m, webSearchWorkerRun ws raw ext = .errored m := by
  have step : ∀ q : String,
      (match search_web q ws.max_results (pyOr ws.language "en") (some ws.safesearch)
          "general" ext.upstream with
        | .error e => RunOutcome.errored e.str
        | .ok results =>
          if results = [] then RunOutcome.errored "Web search returned no results."
          else
            let pieces := (pySliceList ws.max_pages results).enumFrom 1
              |>.map (fun p => resultPiece ext.fetch p.1 p.2)
            let md_lines := pieces.map Prod.fst
            let context_blocks := pieces.map Prod.snd
            let md_block :=
              if md_lines ≠ [] then String.intercalate "\n\n---\n\n" md_lines
              else "_no results_"
            RunOutcome.finished raw q md_block context_blocks) =
        RunOutcome.errored "search_web() got empty query" ∨
      (match search_web q ws.max_results (pyOr ws.language "en") (some ws.safesearch)
          "general" ext.upstream with
        | .error e => RunOutcome.errored e.str
        | .ok results =>
          if results = [] then RunOutcome.errored "Web search returned no results."
          else
            let pieces := (pySliceList ws.max_pages results).enumFrom 1
              |>.map (fun p => resultPiece ext.fetch p.1 p.2)
            let md_lines := pieces.map Prod.fst
            let context_blocks := pieces.map Prod.snd
            let md_block :=
              if md_lines ≠ [] then String.intercalate "\n\n---\n\n" md_lines
              else "_no results_"
            RunOutcome.finished raw q md_block context_blocks) =
        RunOutcome.errored "Web search returned no results." := by
    intro q
    rcases search_web_zero q ws.max_results (pyOr ws.language "en") (some ws.safesearch)
        "general" ext.upstream hup with h | h
    · left
      rw [h]
      rfl
    · right
      rw [h]
      rfl
  rw [webSearchWorkerRun]
  rcases step (if ws.use_planner then
      match ext.planner with
      | .ok q => q
      | .error _ => raw
    else raw) with h | h
  · exact ⟨_, h⟩
  · exact ⟨_, h⟩

theorem modify_index (st : UIState) (f : Chat → Chat) :
    (modifyCurrentChat st f).current_chat_index = st.current_chat_index := by
  rw [modifyCurrentChat]
  cases currentChat st <;> rfl

theorem append_history_histories {st : UIState} {c : Chat} (m : Message)
    (h : currentChat st = some c) :
    (appendHistory st m).chats.map Chat.history =
      (st.chats.map Chat.history).set st.current_chat_index.toNat (c.history ++ [m]) := by
  rw [appendHistory, modify_chats_eq _ h, List.map_set]

theorem handle_errored (ws2 : WebSettings) (fw : String) (s : UIState) (m : String) :
    handleSearchOutcome ws2 fw s (.errored m) = (on_web_search_error s m, none) := rfl

theorem on_web_search_error_idle (s : UIState) (m : String) :
    (on_web_search_error s m).llm_busy = false := rfl

theorem on_web_search_error_histories (s : UIState) (m : String) :
    (on_web_search_error s m).chats.map Chat.history = s.chats.map Chat.history := by
  show (modifyCurrentChat s _).chats.map Chat.history = _
  exact modify_map_eq s _ Chat.history (fun c => rfl)

/-- C5.  A search-augmented turn whose gateway returns zero results: the
click appends the user message and dispatches only the search worker; the
worker run terminates in an error signal (so the model stage is never
reached); handling that error starts no further worker, returns the
orchestrator to idle, and every history is the original one except that
the active chat gained exactly the user message. -/
theorem zero_results_aborts (ws ws2 : WebSettings) (followup : String)
    (st : UIState) (ext : RunExternals) (chat : Chat)
    (hchat : currentChat st = some chat)
    (hen : st.send_enabled = true)
    (hbusy : st.llm_busy = false)
    (hin : pyStrip st.input_text ≠ "")
    (hup : ∀ p, ext.upstream p = .ok (some [])) :
    (on_search_web_clicked st).2 =
      some (.searchWorker
        ((chat.history ++ [({ role := "user", content := pyStrip st.input_text } : Message)]).filter
          plannerKeep)
        (pyStrip st.input_text) chat.model) ∧
    (∃ m, webSearchWorkerRun ws (pyStrip st.input_text) ext = .errored m) ∧
    (handleSearchOutcome ws2 followup (on_search_web_clicked st).1
        (webSearchWorkerRun ws (pyStrip st.input_text) ext)).2 = none ∧
    (handleSearchOutcome ws2 followup (on_search_web_clicked st).1
        (webSearchWorkerRun ws (pyStrip st.input_text) ext)).1.llm_busy = false ∧
    (handleSearchOutcome ws2 followup (on_search_web_clicked st).1
        (webSearchWorkerRun ws (pyStrip st.input_text) ext)).1.chats.map Chat.history =
      (st.chats.map Chat.history).set st.current_chat_index.toNat
        (chat.history ++ [{ role := "user", content := pyStrip st.input_text }]) := by
  obtain ⟨m, hm⟩ := run_zero_results ws (pyStrip st.input_text) ext hup
  have hclick : on_search_web_clicked st =
      ({ appendHistory (append_user { st with input_text := "" } (pyStrip st.input_text))
           { role := "user", content := pyStrip st.input_text } with
         llm_busy := true
         send_enabled := false },
       some (.searchWorker
         ((chat.history ++ [({ role := "user", content := pyStrip st.input_text } : Message)]).filter
           plannerKeep)
         (pyStrip st.input_text) chat.model)) := by
    simp only [on_search_web_clicked, hchat, hen, hbusy, hin, Bool.not_true,
      Bool.false_eq_true, if_false, ite_false]
  have hc' : currentChat { st with input_text := "" } = some chat := hchat
  have hcu : currentChat (append_user { st with input_text := "" } (pyStrip st.input_text))
      = some { chat with
          html := chat.html ++ [Frag.user (pyStrip st.input_text)] } :=
    currentChat_modify _ hc'
  have hook : (appendHistory
        (append_user { st with input_text := "" } (pyStrip st.input_text))
        { role := "user", content := pyStrip st.input_text }).chats.map Chat.history
      = (st.chats.map Chat.history).set st.current_chat_index.toNat
        (chat.history ++ [{ role := "user", content := pyStrip st.input_text }]) := by
    rw [append_history_histories _ hcu]
    show ((modifyCurrentChat ({ st with input_text := "" } : UIState) _).chats.map
          Chat.history).set
        (modifyCurrentChat ({ st with input_text := "" } : UIState) _).current_chat_index.toNat
        _ = _
    rw [modify_map_eq _
      (fun c => { c with html := c.html ++ [Frag.user (pyStrip st.input_text)] })
      Chat.history (fun c => rfl), modify_index]
  refine ⟨by rw [hclick], ⟨m, hm⟩, ?_, ?_, ?_⟩
  · rw [hclick, hm, handle_errored]
  · rw [hclick, hm, handle_errored]
    exact on_web_search_error_idle _ m
  · rw [hclick, hm, handle_errored]
    show (on_web_search_error _ m).chats.map Chat.history = _
    rw [on_web_search_error_histories]
    exact hook

/-- Witness for C5 at a concrete one-chat state whose gateway returns an
empty result list. -/
theorem zero_results_aborts_witness :
    (∃ m, webSearchWorkerRun {} (pyStrip stEx.input_text) extZeroEx = .errored m) ∧
    (handleSearchOutcome {} "answer only from the web results" (on_search_web_clicked stEx).1
        (webSearchWorkerRun {} (pyStrip stEx.input_text) extZeroEx)).2 = none ∧
    (handleSearchOutcome {} "answer only from the web results" (on_search_web_clicked stEx).1
        (webSearchWorkerRun {} (pyStrip stEx.input_text) extZeroEx)).1.llm_busy = false := by
  have h := zero_results_aborts {} {} "answer only from the web results" stEx extZeroEx chatEx
    (by decide) rfl rfl (by decide) (fun p => rfl)
  exact ⟨h.2.1, h.2.2.1, h.2.2.2.1⟩

end LocalChat
